import Mathlib

/-!
Shallow embedding of the `openai-models` crate (src/lib.rs, src/llm.rs,
src/agent.rs, src/tool.rs, src/error.rs) and proofs about it.

Conventions of the embedding:
* Rust `f64` money amounts are modelled as `ℚ`; every concrete computation we
  evaluate below is exact in `f64` as well (all values and intermediate
  results are representable, see the doc comments at the theorems).
* `Vec<T>` is `List T`, `Option<T>` is `Option T`, `Result<T, E>` is
  `Except E T`, `HashMap<String, V>` is an association list with `lookup`.
* Stateful methods (`&mut self`) are state-passing functions returning the
  updated state next to the `Result`.
* The network is not modelled: `complete_once_with_retry` is parameterised by
  the per-attempt outcomes (timeout / transport error / response), and the
  agent loops are parameterised by the list of successive completion
  responses the service would return.
* A Rust panic (`Vec::swap_remove` out of bounds) is `Option.none`.
-/

namespace OpenAIModels

/-- Mirrors `async_openai::types::FinishReason` (the variants used by
`agent.rs`). -/
inductive FinishReason where
  | stop
  | length
  | toolCalls
  | contentFilter
deriving DecidableEq, BEq

/-- Mirrors `FunctionCall { name, arguments }` inside a tool call. -/
structure ToolCallFunction where
  name : String
  arguments : String
deriving DecidableEq, BEq

/-- Mirrors `async_openai::types::ChatCompletionMessageToolCall`
(the `type` tag is always `function` and is omitted). -/
structure ChatCompletionMessageToolCall where
  id : String
  function : ToolCallFunction
deriving DecidableEq, BEq

/-- Mirrors `ChatCompletionResponseMessage` as read by `Agent::run_once`:
optional content, optional refusal, optional tool-call list. -/
structure ChatCompletionResponseMessage where
  content : Option String
  refusal : Option String
  tool_calls : Option (List ChatCompletionMessageToolCall)
deriving DecidableEq, BEq

/-- Mirrors `ChatChoice`: finish reason plus the response message. -/
structure ChatChoice where
  finish_reason : Option FinishReason
  message : ChatCompletionResponseMessage
deriving DecidableEq, BEq

/-- Mirrors `CreateChatCompletionResponse`, keeping only the field the agent
reads (`choices`; `usage` is consumed by `LLMInner::complete`, which is below
the level at which the agent claims are stated). -/
structure CreateChatCompletionResponse where
  choices : List ChatChoice
deriving DecidableEq, BEq

/-- Mirrors the assistant request message built by
`ChatCompletionRequestAssistantMessageArgs`: the builder starts from all
fields `None` and each branch of `run_once` sets exactly one of them. -/
structure AssistantMessage where
  content : Option String
  refusal : Option String
  tool_calls : Option (List ChatCompletionMessageToolCall)
deriving DecidableEq, BEq

/-- Mirrors `ChatCompletionRequestMessage` for the variants the agent
constructs (system, user, assistant). -/
inductive ChatCompletionRequestMessage where
  | system (content : String)
  | user (content : String)
  | assistant (msg : AssistantMessage)
deriving DecidableEq, BEq

/-- The assistant message built by `....default().tool_calls(tc).build()`. -/
def assistantWithToolCalls (tc : List ChatCompletionMessageToolCall) :
    ChatCompletionRequestMessage :=
  .assistant { content := none, refusal := none, tool_calls := some tc }

/-- The assistant message built by `....default().refusal(r).build()`. -/
def assistantWithRefusal (r : String) : ChatCompletionRequestMessage :=
  .assistant { content := none, refusal := some r, tool_calls := none }

/-- The assistant message built by `....default().content(c).build()`. -/
def assistantWithContent (c : String) : ChatCompletionRequestMessage :=
  .assistant { content := some c, refusal := none, tool_calls := none }

/-- Mirrors `error.rs` `PromptError`.  `schemars::Schema`,
`std::io::Error`, `OpenAIError`, `serde_json::Error` and
`color_eyre::Report` payloads are modelled by their rendered text. -/
inductive PromptError where
  | incorrectToolCall (schema : String) (args : String)
  | noSuchTool (name : String)
  | unexpected (msg : String)
  | ioError (msg : String)
  | openai (msg : String)
  | stdJson (msg : String)
  | other (msg : String)
deriving DecidableEq, BEq

/-- True exactly on the `IncorrectToolCall` variant. -/
def PromptError.is_incorrect_tool_call : PromptError → Bool
  | .incorrectToolCall _ _ => true
  | _ => false

/-- True exactly on the `NoSuchTool` variant. -/
def PromptError.is_no_such_tool : PromptError → Bool
  | .noSuchTool _ => true
  | _ => false

/-- Mirrors `lib.rs` `PricingInfo` (USD per 1M tokens); `f64` as `ℚ`. -/
structure PricingInfo where
  input_tokens : ℚ
  output_tokens : ℚ
  cached_input_tokens : Option ℚ
deriving DecidableEq

/-- Mirrors `lib.rs` `OpenAIModel`. -/
inductive OpenAIModel where
  | gpt4o
  | gpt4omini
  | o1
  | o1mini
  | gpt35turbo
  | gpt4
  | gpt4turbo
  | other (name : String) (pricing : PricingInfo)
deriving DecidableEq

/-- Mirrors `OpenAIModel::pricing` (lib.rs lines 131-171); the decimal `f64`
literals are exact: 2.5 = 5/2, 1.25 = 5/4, 0.15 = 3/20, 0.075 = 3/40,
0.6 = 3/5, 7.5 = 15/2, 1.5 = 3/2. -/
def OpenAIModel.pricing : OpenAIModel → PricingInfo
  | .gpt4o => { input_tokens := 5/2, output_tokens := 10, cached_input_tokens := some (5/4) }
  | .gpt4omini => { input_tokens := 3/20, output_tokens := 3/5, cached_input_tokens := some (3/40) }
  | .o1 => { input_tokens := 15, output_tokens := 60, cached_input_tokens := some (15/2) }
  | .o1mini => { input_tokens := 3, output_tokens := 12, cached_input_tokens := some (3/2) }
  | .gpt35turbo => { input_tokens := 3, output_tokens := 6, cached_input_tokens := none }
  | .gpt4 => { input_tokens := 30, output_tokens := 60, cached_input_tokens := none }
  | .gpt4turbo => { input_tokens := 10, output_tokens := 30, cached_input_tokens := none }
  | .other _ p => p

/-- Models the `Err(eyre!("cap {} reached, current {}", self.cap,
self.current))` value produced by `ModelBilling::{input_tokens,output_tokens}`
(llm.rs lines 219, 231), carrying the two interpolated numbers. -/
inductive BudgetError where
  | budgetExceeded (cap : ℚ) (current : ℚ)
deriving DecidableEq

/-- Mirrors `llm.rs` `ModelBilling { current, cap }`. -/
structure ModelBilling where
  current : ℚ
  cap : ℚ
deriving DecidableEq

/-- Mirrors `ModelBilling::new` (llm.rs lines 203-205). -/
def ModelBilling.new (cap : ℚ) : ModelBilling :=
  { current := 0, cap := cap }

/-- Mirrors `ModelBilling::in_cap` (llm.rs lines 207-209):
`self.current <= self.cap`. -/
def ModelBilling.in_cap (b : ModelBilling) : Bool :=
  decide (b.current ≤ b.cap)

/-- Mirrors `ModelBilling::input_tokens` (llm.rs lines 211-221): add
`pricing.input_tokens * count / 1e6` to `current`, then check the cap;
the updated state is returned in either case (no rollback). -/
def ModelBilling.input_tokens (b : ModelBilling) (model : OpenAIModel)
    (count : ℕ) : ModelBilling × Except BudgetError Unit :=
  let pricing := model.pricing
  let b1 : ModelBilling :=
    { b with current := b.current + pricing.input_tokens * (count : ℚ) / 1000000 }
  if b1.in_cap then (b1, .ok ()) else (b1, .error (.budgetExceeded b1.cap b1.current))

/-- Mirrors `ModelBilling::output_tokens` (llm.rs lines 223-233). -/
def ModelBilling.output_tokens (b : ModelBilling) (model : OpenAIModel)
    (count : ℕ) : ModelBilling × Except BudgetError Unit :=
  let pricing := model.pricing
  let b1 : ModelBilling :=
    { b with current := b.current + pricing.output_tokens * (count : ℚ) / 1000000 }
  if b1.in_cap then (b1, .ok ()) else (b1, .error (.budgetExceeded b1.cap b1.current))

/-- Mirrors `std::time::Duration` as used by the crate: either
`Duration::from_secs(s)` or the sentinel `Duration::MAX`, which the code uses
as "no effective deadline" (llm.rs lines 511-515 and 528-532). -/
inductive RustDuration where
  | fromSecs (secs : ℕ)
  | maxDuration
deriving DecidableEq

/-- Mirrors the timeout computed by `LLMInner::prompt_once_with_retry`
(llm.rs lines 511-515): `if settings.llm_prompt_timeout == 0 { Duration::MAX }
else { Duration::from_secs(..) }`. -/
def LLMInner.prompt_once_timeout (llm_prompt_timeout : ℕ) : RustDuration :=
  if llm_prompt_timeout = 0 then .maxDuration else .fromSecs llm_prompt_timeout

/-- Mirrors the timeout computed by `Agent::run_once` (agent.rs line 82):
`Duration::from_secs(settings.llm_prompt_timeout)`, with no special case. -/
def Agent.run_once_timeout (llm_prompt_timeout : ℕ) : RustDuration :=
  .fromSecs llm_prompt_timeout

/-- Mirrors `complete_once_with_retry`'s defaulting of its `timeout` argument
(llm.rs lines 528-532): `None` becomes `Duration::MAX`. -/
def effective_attempt_timeout (timeout : Option RustDuration) : RustDuration :=
  timeout.getD .maxDuration

/-- Outcome of one attempt of the retry loop in `complete_once_with_retry`
(llm.rs lines 541-550): the `tokio::time::timeout` wrapper either elapses
(`timeout`), or the inner `complete` call returns an error or a response. -/
inductive AttemptOutcome where
  | timeout
  | errored (e : PromptError)
  | completed (r : CreateChatCompletionResponse)
deriving DecidableEq

/-- True exactly on the `timeout` outcome. -/
def AttemptOutcome.is_timeout : AttemptOutcome → Bool
  | .timeout => true
  | _ => false

/-- True exactly on the `completed` outcome. -/
def AttemptOutcome.is_completed : AttemptOutcome → Bool
  | .completed _ => true
  | _ => false

/-- The loop body of `LLMInner::complete_once_with_retry` (llm.rs lines
540-566).  The list holds the outcome of each of the `retry` attempts in
order (so `retry == 0` is the empty list); `last` is the `let mut last = None`
slot.  A timeout leaves `last` unchanged (`continue`), an error overwrites it
and the loop proceeds, a response returns immediately; after the loop,
`last.ok_or_eyre(eyre!("retry is zero?!"))` yields the recorded error, or the
generic `Other` error when no attempt ever returned. -/
def retry_loop :
    List AttemptOutcome → Option (Except PromptError CreateChatCompletionResponse) →
    Except PromptError CreateChatCompletionResponse
  | [], last =>
    match last with
    | none => .error (.other "retry is zero?!")
    | some (.error e) => .error e
    | some (.ok r) => .ok r
  | o :: rest, last =>
    match o with
    | .timeout => retry_loop rest last
    | .errored e => retry_loop rest (some (.error e))
    | .completed r => .ok r

/-- Mirrors `LLMInner::complete_once_with_retry` (llm.rs lines 521-566),
parameterised by the scripted outcome of each attempt. -/
def complete_once_with_retry (attempts : List AttemptOutcome) :
    Except PromptError CreateChatCompletionResponse :=
  retry_loop attempts none

/-- The conversation context: `Agent.context: Vec<ChatCompletionRequestMessage>`. -/
abbrev Ctx := List ChatCompletionRequestMessage

/-- Mirrors `agent.rs` `AgentAction<T>`. -/
inductive AgentAction (T : Type) where
  | cont
  | unexpected (msg : String)
  | out (v : T)
deriving DecidableEq

/-- Result of a handler closure together with the (possibly mutated)
conversation context: the closures of `run_once` receive `&mut Agent` and
return `Result<AgentAction<T>, PromptError>`; mutations of `self.context`
persist even when the closure errors, so the context travels next to the
`Result`. -/
abbrev HandlerResult (T : Type) := Except PromptError (AgentAction T) × Ctx

/-- Mirrors `ToolBox` (tool.rs lines 74-77): `HashMap<String, Box<dyn
ToolDyn>>` modelled as an association list from the tool name to its
type-erased `call` function `String -> Result<String, PromptError>`. -/
structure ToolBox where
  tools : List (String × (String → Except PromptError String))

/-- Mirrors `ToolBox::invoke` (tool.rs lines 88-99): `None` when the name is
not registered, otherwise the result of the tool's `call`. -/
def ToolBox.invoke (tb : ToolBox) (tool_name : String) (arguments : String) :
    Option (Except PromptError String) :=
  match tb.tools.lookup tool_name with
  | some tool => some (tool arguments)
  | none => none

/-- Mirrors the generic `Tool::call` (tool.rs lines 40-53): parse the raw
arguments; on failure, `IncorrectToolCall(schema, arguments)`; on success run
the tool body.  `parse` stands for `serde_json::from_str::<ARGUMENTS>` and
`schema` for `schema_for!(ARGUMENTS)`. -/
def Tool.call {ARGS : Type} (parse : String → Except String ARGS) (schema : String)
    (invoke : ARGS → Except PromptError String) (arguments : String) :
    Except PromptError String :=
  match parse arguments with
  | .ok args => invoke args
  | .error _ => .error (.incorrectToolCall schema arguments)

/-- Mirrors `Agent::handle_toolcalls` (agent.rs lines 131-151): invoke each
call in order; a missing tool yields `NoSuchTool` immediately, a tool error
propagates immediately, otherwise the text results are collected in order. -/
def Agent.handle_toolcalls (tb : ToolBox) :
    List ChatCompletionMessageToolCall → Except PromptError (List String)
  | [] => .ok []
  | call :: rest =>
    match tb.invoke call.function.name call.function.arguments with
    | none => .error (.noSuchTool call.function.name)
    | some (.error e) => .error e
    | some (.ok v) =>
      match Agent.handle_toolcalls tb rest with
      | .ok vs => .ok (v :: vs)
      | .error e => .error e

/-- Mirrors `Agent::append_context` (agent.rs lines 153-159): push one user
message. -/
def Agent.append_context (ctx : Ctx) (s : String) : Ctx :=
  ctx ++ [ChatCompletionRequestMessage.user s]

/-- The first branch condition of `run_once` (agent.rs lines 90-97):
`finish_reason == Some(ToolCalls) || message.tool_calls.map(|t| t.len() >
0).unwrap_or_default()`. -/
def toolcalls_branch (choice : ChatChoice) : Bool :=
  (choice.finish_reason == some .toolCalls)
    || ((choice.message.tool_calls.map fun t => decide (0 < t.length)).getD false)

/-- The second branch condition of `run_once` (agent.rs lines 104-105):
`finish_reason == Some(ContentFilter) || message.refusal.is_some()`. -/
def refusal_branch (choice : ChatChoice) : Bool :=
  (choice.finish_reason == some .contentFilter) || choice.message.refusal.isSome

/-- The third branch condition of `run_once` (agent.rs lines 113-115):
`finish_reason == Some(Stop) || finish_reason == Some(Length) ||
message.content.is_some()`. -/
def message_branch (choice : ChatChoice) : Bool :=
  (choice.finish_reason == some .stop) || (choice.finish_reason == some .length)
    || choice.message.content.isSome

/-- Mirrors `Agent::run_once` (agent.rs lines 56-129) from the point where
the completion response is in hand (request building, the
`complete_once_with_retry` call and its timeout are embedded separately).
`none` models the panic of `resp.choices.swap_remove(0)` on an empty `Vec`
(agent.rs line 88); `swap_remove(0)` on a non-empty vector returns its first
element.  Note that the `message_branch` arm pushes an assistant message whose
content is `choice.message.refusal.clone().unwrap_or_default()` (agent.rs
line 119) while handing `choice.message.content.unwrap_or_default()` to the
`on_message` closure — this mirrors the source exactly. -/
def Agent.run_once {T : Type} (resp : CreateChatCompletionResponse) (ctx : Ctx)
    (on_toolcalls : Ctx → List ChatCompletionMessageToolCall → HandlerResult T)
    (on_message : Ctx → String → HandlerResult T)
    (on_refusal : Ctx → String → HandlerResult T) :
    Option (HandlerResult T) :=
  match resp.choices with
  | [] => none
  | choice :: _ =>
    some (
      if toolcalls_branch choice then
        let tc := choice.message.tool_calls.getD []
        on_toolcalls (ctx ++ [assistantWithToolCalls tc]) tc
      else if refusal_branch choice then
        let r := choice.message.refusal.getD ""
        on_refusal (ctx ++ [assistantWithRefusal r]) r
      else if message_branch choice then
        on_message (ctx ++ [assistantWithContent (choice.message.refusal.getD "")])
          (choice.message.content.getD "")
      else
        (.error (.other "Not supported choice"), ctx))

/-- Terminal outcome of a driver loop run against a finite script of
completion responses.  `awaiting` means the script ran out while the loop
was still going to issue another turn; `panicked` is the `swap_remove`
panic surfaced from `run_once`. -/
inductive LoopResult (T : Type) where
  | ok (v : T) (ctx : Ctx)
  | err (e : PromptError) (ctx : Ctx)
  | panicked (ctx : Ctx)
  | awaiting (ctx : Ctx)
deriving DecidableEq

/-- True exactly on the `ok` outcome. -/
def LoopResult.succeeded {T : Type} : LoopResult T → Bool
  | .ok _ _ => true
  | _ => false

/-- The `on_toolcalls` closure of `Agent::run_until_tool` (agent.rs lines
173-192).  `tname` is `T::NAME` and `parse` is
`serde_json::from_str::<T::ARGUMENTS>`, returning the serde error message on
failure (converted to `PromptError::STDJSON` by the `?` operator via the
`From<serde_json::Error>` impl in error.rs). -/
def run_until_tool_on_toolcalls {ARGS : Type} (tname : String)
    (parse : String → Except String ARGS) (tb : ToolBox) (ctx : Ctx)
    (toolcalls : List ChatCompletionMessageToolCall) : HandlerResult ARGS :=
  match toolcalls.find? fun t => t.function.name == tname with
  | some call =>
    match parse call.function.arguments with
    | .ok td => (.ok (.out td), ctx)
    | .error e => (.error (.stdJson e), ctx)
  | none =>
    match Agent.handle_toolcalls tb toolcalls with
    | .ok resps => (.ok .cont, Agent.append_context ctx (String.intercalate "\n" resps))
    | .error (.noSuchTool _) => (.ok .cont, ctx)
    | .error (.incorrectToolCall _ _) => (.ok .cont, ctx)
    | .error e => (.error e, ctx)

/-- The `on_toolcalls` closure of `Agent::run_until_text` (agent.rs lines
218-232): always dispatch every call; `NoSuchTool` / `IncorrectToolCall`
yield `Continue`, other errors propagate. -/
def run_until_text_on_toolcalls (tb : ToolBox) (ctx : Ctx)
    (toolcalls : List ChatCompletionMessageToolCall) : HandlerResult String :=
  match Agent.handle_toolcalls tb toolcalls with
  | .ok resps => (.ok .cont, Agent.append_context ctx (String.intercalate "\n" resps))
  | .error (.noSuchTool _) => (.ok .cont, ctx)
  | .error (.incorrectToolCall _ _) => (.ok .cont, ctx)
  | .error e => (.error e, ctx)

/-- Mirrors `Agent::run_until_tool` (agent.rs lines 161-204), driven by the
script of successive completion responses.  On `Continue` the loop issues the
next turn; `Unexpected(s)` becomes `Err(PromptError::Unexpected(s))`;
`Out(v)` becomes `Ok(v)`. -/
def Agent.run_until_tool {ARGS : Type} (tname : String)
    (parse : String → Except String ARGS) (tb : ToolBox) :
    List CreateChatCompletionResponse → Ctx → LoopResult ARGS
  | [], ctx => .awaiting ctx
  | resp :: rest, ctx =>
    match Agent.run_once resp ctx
        (run_until_tool_on_toolcalls tname parse tb)
        (fun c msg => (.ok (.unexpected msg), c))
        (fun c msg => (.ok (.unexpected msg), c)) with
    | none => .panicked ctx
    | some (.error e, c) => .err e c
    | some (.ok .cont, c) => Agent.run_until_tool tname parse tb rest c
    | some (.ok (.unexpected s), c) => .err (.unexpected s) c
    | some (.ok (.out v), c) => .ok v c

/-- Mirrors `Agent::run_until_text` (agent.rs lines 206-244).  Note both
`Unexpected(s)` (the refusal/message path) and `Out(s)` return `Ok(s)`. -/
def Agent.run_until_text (tb : ToolBox) :
    List CreateChatCompletionResponse → Ctx → LoopResult String
  | [], ctx => .awaiting ctx
  | resp :: rest, ctx =>
    match Agent.run_once resp ctx
        (run_until_text_on_toolcalls tb)
        (fun c msg => (.ok (.out msg), c))
        (fun c msg => (.ok (.unexpected msg), c)) with
    | none => .panicked ctx
    | some (.error e, c) => .err e c
    | some (.ok .cont, c) => Agent.run_until_text tb rest c
    | some (.ok (.unexpected s), c) => .ok s c
    | some (.ok (.out v), c) => .ok v c

/-- The tool calls of the first choice of a response, as extracted by the
tool-calls branch of `run_once`. -/
def first_choice_toolcalls (resp : CreateChatCompletionResponse) :
    List ChatCompletionMessageToolCall :=
  match resp.choices with
  | choice :: _ => choice.message.tool_calls.getD []
  | [] => []

/-- A completion response whose first choice takes the tool-calls branch of
`run_once` and whose dispatch through `tb` fails with one of the two
recoverable errors (`NoSuchTool` or `IncorrectToolCall`). -/
def recoverable_failure_response (tb : ToolBox)
    (resp : CreateChatCompletionResponse) : Prop :=
  ∃ choice restChoices, resp.choices = choice :: restChoices ∧
    toolcalls_branch choice = true ∧
    ∃ e, Agent.handle_toolcalls tb (choice.message.tool_calls.getD []) = .error e ∧
      (e.is_no_such_tool = true ∨ e.is_incorrect_tool_call = true)

/-- A response none of whose first-choice tool calls is named `tname` (so
`run_until_tool` does not treat it as the target). -/
def no_target_call (tname : String) (resp : CreateChatCompletionResponse) : Prop :=
  (first_choice_toolcalls resp).find? (fun t => t.function.name == tname) = none

/-- A completion response whose first choice takes the tool-calls branch of
`run_once` and whose dispatch through `tb` fails with `e`, a dispatch error
that is neither `NoSuchTool` nor `IncorrectToolCall`. -/
def fatal_failure_response (tb : ToolBox) (resp : CreateChatCompletionResponse)
    (e : PromptError) : Prop :=
  ∃ choice restChoices, resp.choices = choice :: restChoices ∧
    toolcalls_branch choice = true ∧
    Agent.handle_toolcalls tb (choice.message.tool_calls.getD []) = .error e ∧
    e.is_no_such_tool = false ∧ e.is_incorrect_tool_call = false

/-! Concrete fixtures used to evaluate the embedding at specific inputs. -/

/-- Accumulate the value of a decimal digit string; `none` on any
non-digit. -/
def digitsValue : List Char → ℕ → Option ℕ
  | [], acc => some acc
  | c :: cs, acc =>
    if c.isDigit then digitsValue cs (acc * 10 + (c.toNat - 48)) else none

/-- A stand-in for `serde_json::from_str::<u64>`: accepts decimal numerals,
rejects everything else with an error message (the serde text is opaque to
the crate; only its presence matters). -/
def parse_nat (s : String) : Except String ℕ :=
  match s.data with
  | [] => .error ("not a number: " ++ s)
  | cs =>
    match digitsValue cs 0 with
    | some n => .ok n
    | none => .error ("not a number: " ++ s)

/-- Build a tool call value. -/
def mkToolCall (id name args : String) : ChatCompletionMessageToolCall :=
  { id := id, function := { name := name, arguments := args } }

/-- Build a choice from a finish reason and the three message fields. -/
def mkChoice (fr : Option FinishReason) (content refusal : Option String)
    (tc : Option (List ChatCompletionMessageToolCall)) : ChatChoice :=
  { finish_reason := fr
    message := { content := content, refusal := refusal, tool_calls := tc } }

/-- Build a response whose single choice finished with `ToolCalls` and
carries the given call list. -/
def toolcallsResponse (calls : List ChatCompletionMessageToolCall) :
    CreateChatCompletionResponse :=
  { choices := [mkChoice (some .toolCalls) none none (some calls)] }

/-- A `Stop` choice carrying content `"hello"` and no refusal. -/
def c1_response : CreateChatCompletionResponse :=
  { choices := [mkChoice (some .stop) (some "hello") none none] }

/-- Two calls to the target tool: the first with unparsable arguments, the
second with arguments that parse. -/
def c6_response : CreateChatCompletionResponse :=
  toolcallsResponse [mkToolCall "1" "mytool" "oops", mkToolCall "2" "mytool" "42"]

/-- An unrelated call followed by a target call whose arguments parse. -/
def c6_witness_response : CreateChatCompletionResponse :=
  toolcallsResponse [mkToolCall "1" "other" "1", mkToolCall "2" "mytool" "7"]

/-- A single target call with unparsable arguments. -/
def c7_response : CreateChatCompletionResponse :=
  toolcallsResponse [mkToolCall "1" "mytool" "zzz"]

/-- A single target call with unparsable arguments (witness copy for the
amended statement). -/
def c7_witness_response : CreateChatCompletionResponse :=
  toolcallsResponse [mkToolCall "1" "mytool" "what"]

/-- A call to a tool name registered in no toolbox used below. -/
def unknown_tool_response : CreateChatCompletionResponse :=
  toolcallsResponse [mkToolCall "1" "nope" "1"]

/-- A call to the `boom` tool of `fatal_toolbox`. -/
def fatal_response : CreateChatCompletionResponse :=
  toolcallsResponse [mkToolCall "1" "boom" "1"]

/-- A toolbox whose only tool fails with a non-recoverable error. -/
def fatal_toolbox : ToolBox :=
  { tools := [("boom", fun _ => .error (.ioError "disk error"))] }

/-- A `ContentFilter` choice carrying a refusal text. -/
def c9_response : CreateChatCompletionResponse :=
  { choices := [mkChoice (some .contentFilter) none (some "cannot help with that") none] }

/-- A `Stop` choice carrying content, used to witness the non-empty-choices
side of the `swap_remove` claim. -/
def c10_response : CreateChatCompletionResponse :=
  { choices := [mkChoice (some .stop) (some "done") none none] }

/-- A handler that ignores its input and continues (used where the handler is
irrelevant to the conclusion). -/
def contHandler {T α : Type} (c : Ctx) (_ : α) : HandlerResult T :=
  (.ok .cont, c)

/-! Helper lemmas (shared). -/

/-- Attempts that all time out leave the `last` slot untouched, so the loop
ends exactly as it would with zero attempts. -/
theorem retry_loop_all_timeouts (l : List AttemptOutcome)
    (last : Option (Except PromptError CreateChatCompletionResponse))
    (h : ∀ o ∈ l, o.is_timeout = true) :
    retry_loop l last = retry_loop [] last := by
  induction l with
  | nil => rfl
  | cons o rest ih =>
    have ho := h o (by simp)
    cases o with
    | timeout =>
      have := ih fun x hx => h x (by simp [hx])
      simpa [retry_loop] using this
    | errored e => simp [AttemptOutcome.is_timeout] at ho
    | completed r => simp [AttemptOutcome.is_timeout] at ho

/-- If no attempt before the last error completes and everything after it
times out, the loop ends with exactly that error. -/
theorem retry_loop_last_error (pre post : List AttemptOutcome) (e : PromptError)
    (last : Option (Except PromptError CreateChatCompletionResponse))
    (hpre : ∀ o ∈ pre, o.is_completed = false)
    (hpost : ∀ o ∈ post, o.is_timeout = true) :
    retry_loop (pre ++ .errored e :: post) last = .error e := by
  induction pre generalizing last with
  | nil =>
    simp only [List.nil_append, retry_loop]
    rw [retry_loop_all_timeouts post _ hpost]
    rfl
  | cons o rest ih =>
    have ho := hpre o (by simp)
    have hrest : ∀ x ∈ rest, x.is_completed = false := fun x hx => hpre x (by simp [hx])
    cases o with
    | timeout => simpa [retry_loop] using ih _ hrest
    | errored e1 => simpa [retry_loop] using ih _ hrest
    | completed r => simp [AttemptOutcome.is_completed] at ho

/-! Claim theorems. -/

/-- C3 (counterexample): with two attempts that both time out,
`complete_once_with_retry` fails with the generic `Other("retry is zero?!")`
error — the very same value it returns for the zero-attempts configuration,
so there is no dedicated "all attempts timed out" variant; and when the last
observed outcome is an underlying error, that error is returned bare (the
`PromptError` type of error.rs has no `RetryExhausted` variant at all). -/
theorem complete_once_no_dedicated_timeout_variant :
    complete_once_with_retry [.timeout, .timeout] = .error (.other "retry is zero?!")
  ∧ complete_once_with_retry [] = .error (.other "retry is zero?!")
  ∧ complete_once_with_retry [.errored (.openai "connect failed"), .timeout]
      = .error (.openai "connect failed") :=
  ⟨rfl, rfl, rfl⟩

/-- C3 (amended): if every attempt times out — or there are no attempts —
the call fails with `Other("retry is zero?!")`; if some attempt errors, no
earlier attempt returns a response and every later attempt times out, the
call fails with that last observed error itself, unwrapped. -/
theorem complete_once_retry_exhaustion (attempts pre post : List AttemptOutcome)
    (e : PromptError) :
    ((∀ o ∈ attempts, o.is_timeout = true) →
        complete_once_with_retry attempts = .error (.other "retry is zero?!"))
  ∧ ((∀ o ∈ pre, o.is_completed = false) → (∀ o ∈ post, o.is_timeout = true) →
        complete_once_with_retry (pre ++ .errored e :: post) = .error e) := by
  constructor
  · intro h
    unfold complete_once_with_retry
    rw [retry_loop_all_timeouts attempts none h]
    rfl
  · intro h1 h2
    exact retry_loop_last_error pre post e none h1 h2

/-- Witness for `complete_once_retry_exhaustion` at concrete attempt lists. -/
theorem complete_once_retry_exhaustion_witness :
    complete_once_with_retry [.timeout] = .error (.other "retry is zero?!")
  ∧ complete_once_with_retry [.timeout, .errored (.openai "boom"), .timeout]
      = .error (.openai "boom") := by
  constructor
  · exact (complete_once_retry_exhaustion [.timeout] [] [] (.other "x")).1 (by decide)
  · exact (complete_once_retry_exhaustion [] [.timeout] [.timeout] (.openai "boom")).2
      (by decide) (by decide)

/-- C4: charging input tokens always adds `price * count / 1e6` to the spend
and only then checks the cap on the updated spend; the updated state is kept
even when the check fails.  Concretely, with cap `10` and the `gpt-4o` input
price of `2.5` USD per 1M tokens, charging `5000000` tokens from spend `0`
leaves the spend at `12.5` and returns the budget-exceeded error.  (All the
concrete `f64` computations here are exact: `2.5`, `5000000.0`, `12500000.0`,
`12.5` and `10.0` are binary floating-point values and no rounding occurs, so
the `ℚ` model agrees with the `f64` source on this input.) -/
theorem budget_charge_then_check (b : ModelBilling) (model : OpenAIModel)
    (count : ℕ) :
    ((b.input_tokens model count).1.current
        = b.current + model.pricing.input_tokens * (count : ℚ) / 1000000)
  ∧ ((b.input_tokens model count).1.cap = b.cap)
  ∧ ((b.input_tokens model count).2
        = if (b.input_tokens model count).1.current ≤ b.cap then .ok ()
          else .error (.budgetExceeded b.cap (b.input_tokens model count).1.current))
  ∧ ((ModelBilling.new 10).input_tokens .gpt4o 5000000
        = ({ current := 25/2, cap := 10 }, .error (.budgetExceeded 10 (25/2)))) := by
  refine ⟨?_, ?_, ?_, ?_⟩
  · simp only [ModelBilling.input_tokens]
    split <;> rfl
  · simp only [ModelBilling.input_tokens]
    split <;> rfl
  · simp only [ModelBilling.input_tokens, ModelBilling.in_cap, decide_eq_true_eq]
    split <;> rfl
  · norm_num [ModelBilling.input_tokens, ModelBilling.in_cap, ModelBilling.new,
      OpenAIModel.pricing]

/-- C2: `prompt_once_with_retry` maps a zero `llm_prompt_timeout` to
`Duration::MAX` (the unbounded sentinel), but `Agent::run_once` passes
`Duration::from_secs(0)` — a zero-second per-attempt deadline, not an
unbounded one — so the setting `0` is not unbounded on the agent path. -/
theorem timeout_zero_bounded_in_run_once :
    effective_attempt_timeout (some (LLMInner.prompt_once_timeout 0)) = .maxDuration
  ∧ effective_attempt_timeout (some (Agent.run_once_timeout 0)) = .fromSecs 0
  ∧ RustDuration.fromSecs 0 ≠ RustDuration.maxDuration := by
  refine ⟨rfl, rfl, ?_⟩
  intro h
  cases h

/-- C1: evaluating `run_once` on a `Stop` choice with content `"hello"` and
no refusal.  The `on_message` closure does receive the content text
`"hello"`, but the assistant message appended to the context carries content
`""` — `choice.message.refusal.clone().unwrap_or_default()` (agent.rs line
119) — not the choice's content text, so the appended message differs from
the one the claim describes. -/
theorem run_once_message_branch_appends_refusal_default :
    Agent.run_once (T := String) c1_response [ChatCompletionRequestMessage.user "hi"]
      contHandler
      (fun c msg => (.ok (.out msg), c))
      contHandler
    = some (.ok (.out "hello"),
        [ChatCompletionRequestMessage.user "hi", assistantWithContent ""])
  ∧ assistantWithContent "" ≠ assistantWithContent "hello" := by
  refine ⟨rfl, ?_⟩
  decide

/-- C10: `run_once` panics (models `swap_remove(0)` on an empty `Vec`) when
the response has no choices, instead of producing any `Result`; with at least
one choice the extraction is in bounds and `run_once` returns a value. -/
theorem run_once_requires_nonempty_choices {T : Type}
    (resp : CreateChatCompletionResponse) (ctx : Ctx)
    (onT : Ctx → List ChatCompletionMessageToolCall → HandlerResult T)
    (onM onR : Ctx → String → HandlerResult T) :
    (resp.choices = [] → Agent.run_once resp ctx onT onM onR = none)
  ∧ (resp.choices ≠ [] → (Agent.run_once resp ctx onT onM onR).isSome = true) := by
  constructor
  · intro h
    simp [Agent.run_once, h]
  · intro h
    cases hc : resp.choices with
    | nil => exact absurd hc h
    | cons c rest => simp [Agent.run_once, hc]

/-- Witness for `run_once_requires_nonempty_choices`: the empty response
panics, a one-choice response does not. -/
theorem run_once_requires_nonempty_choices_witness :
    Agent.run_once (T := Unit) { choices := [] } [] contHandler contHandler contHandler
      = none
  ∧ (Agent.run_once (T := Unit) c10_response [] contHandler contHandler
      contHandler).isSome = true := by
  constructor
  · exact (run_once_requires_nonempty_choices { choices := [] } []
      contHandler contHandler contHandler).1 rfl
  · exact (run_once_requires_nonempty_choices c10_response []
      contHandler contHandler contHandler).2 (by simp [c10_response])

/-- One recoverable-failure turn of `run_until_tool` appends only the
assistant tool-calls message and continues with the rest of the script. -/
theorem run_until_tool_step_recoverable {ARGS : Type} (tname : String)
    (parse : String → Except String ARGS) (tb : ToolBox)
    (resp : CreateChatCompletionResponse) (rest : List CreateChatCompletionResponse)
    (ctx : Ctx) (h : recoverable_failure_response tb resp)
    (hn : no_target_call tname resp) :
    Agent.run_until_tool tname parse tb (resp :: rest) ctx
      = Agent.run_until_tool tname parse tb rest
          (ctx ++ [assistantWithToolCalls (first_choice_toolcalls resp)]) := by
  obtain ⟨choice, restChoices, hc, hb, e, he, hrec⟩ := h
  have hfc : first_choice_toolcalls resp = choice.message.tool_calls.getD [] := by
    simp [first_choice_toolcalls, hc]
  rw [no_target_call, hfc] at hn
  rw [hfc]
  rcases e with ⟨s, a⟩ | n | m | m | m | m | m
  · simp [Agent.run_until_tool, Agent.run_once, hc, hb, run_until_tool_on_toolcalls, he, hn]
  · simp [Agent.run_until_tool, Agent.run_once, hc, hb, run_until_tool_on_toolcalls, he, hn]
  · simp [PromptError.is_no_such_tool, PromptError.is_incorrect_tool_call] at hrec
  · simp [PromptError.is_no_such_tool, PromptError.is_incorrect_tool_call] at hrec
  · simp [PromptError.is_no_such_tool, PromptError.is_incorrect_tool_call] at hrec
  · simp [PromptError.is_no_such_tool, PromptError.is_incorrect_tool_call] at hrec
  · simp [PromptError.is_no_such_tool, PromptError.is_incorrect_tool_call] at hrec

/-- One recoverable-failure turn of `run_until_text` appends only the
assistant tool-calls message and continues with the rest of the script. -/
theorem run_until_text_step_recoverable (tb : ToolBox)
    (resp : CreateChatCompletionResponse) (rest : List CreateChatCompletionResponse)
    (ctx : Ctx) (h : recoverable_failure_response tb resp) :
    Agent.run_until_text tb (resp :: rest) ctx
      = Agent.run_until_text tb rest
          (ctx ++ [assistantWithToolCalls (first_choice_toolcalls resp)]) := by
  obtain ⟨choice, restChoices, hc, hb, e, he, hrec⟩ := h
  have hfc : first_choice_toolcalls resp = choice.message.tool_calls.getD [] := by
    simp [first_choice_toolcalls, hc]
  rw [hfc]
  rcases e with ⟨s, a⟩ | n | m | m | m | m | m
  · simp [Agent.run_until_text, Agent.run_once, hc, hb, run_until_text_on_toolcalls, he]
  · simp [Agent.run_until_text, Agent.run_once, hc, hb, run_until_text_on_toolcalls, he]
  · simp [PromptError.is_no_such_tool, PromptError.is_incorrect_tool_call] at hrec
  · simp [PromptError.is_no_such_tool, PromptError.is_incorrect_tool_call] at hrec
  · simp [PromptError.is_no_such_tool, PromptError.is_incorrect_tool_call] at hrec
  · simp [PromptError.is_no_such_tool, PromptError.is_incorrect_tool_call] at hrec
  · simp [PromptError.is_no_such_tool, PromptError.is_incorrect_tool_call] at hrec

/-- A fatal dispatch failure ends `run_until_tool` with that error. -/
theorem run_until_tool_step_fatal {ARGS : Type} (tname : String)
    (parse : String → Except String ARGS) (tb : ToolBox)
    (resp : CreateChatCompletionResponse) (rest : List CreateChatCompletionResponse)
    (ctx : Ctx) (e : PromptError) (h : fatal_failure_response tb resp e)
    (hn : no_target_call tname resp) :
    Agent.run_until_tool tname parse tb (resp :: rest) ctx
      = .err e (ctx ++ [assistantWithToolCalls (first_choice_toolcalls resp)]) := by
  obtain ⟨choice, restChoices, hc, hb, he, h1, h2⟩ := h
  have hfc : first_choice_toolcalls resp = choice.message.tool_calls.getD [] := by
    simp [first_choice_toolcalls, hc]
  rw [no_target_call, hfc] at hn
  rw [hfc]
  rcases e with ⟨s, a⟩ | n | m | m | m | m | m
  · simp [PromptError.is_incorrect_tool_call] at h2
  · simp [PromptError.is_no_such_tool] at h1
  · simp [Agent.run_until_tool, Agent.run_once, hc, hb, run_until_tool_on_toolcalls, he, hn]
  · simp [Agent.run_until_tool, Agent.run_once, hc, hb, run_until_tool_on_toolcalls, he, hn]
  · simp [Agent.run_until_tool, Agent.run_once, hc, hb, run_until_tool_on_toolcalls, he, hn]
  · simp [Agent.run_until_tool, Agent.run_once, hc, hb, run_until_tool_on_toolcalls, he, hn]
  · simp [Agent.run_until_tool, Agent.run_once, hc, hb, run_until_tool_on_toolcalls, he, hn]

/-- A fatal dispatch failure ends `run_until_text` with that error. -/
theorem run_until_text_step_fatal (tb : ToolBox)
    (resp : CreateChatCompletionResponse) (rest : List CreateChatCompletionResponse)
    (ctx : Ctx) (e : PromptError) (h : fatal_failure_response tb resp e) :
    Agent.run_until_text tb (resp :: rest) ctx
      = .err e (ctx ++ [assistantWithToolCalls (first_choice_toolcalls resp)]) := by
  obtain ⟨choice, restChoices, hc, hb, he, h1, h2⟩ := h
  have hfc : first_choice_toolcalls resp = choice.message.tool_calls.getD [] := by
    simp [first_choice_toolcalls, hc]
  rw [hfc]
  rcases e with ⟨s, a⟩ | n | m | m | m | m | m
  · simp [PromptError.is_incorrect_tool_call] at h2
  · simp [PromptError.is_no_such_tool] at h1
  · simp [Agent.run_until_text, Agent.run_once, hc, hb, run_until_text_on_toolcalls, he]
  · simp [Agent.run_until_text, Agent.run_once, hc, hb, run_until_text_on_toolcalls, he]
  · simp [Agent.run_until_text, Agent.run_once, hc, hb, run_until_text_on_toolcalls, he]
  · simp [Agent.run_until_text, Agent.run_once, hc, hb, run_until_text_on_toolcalls, he]
  · simp [Agent.run_until_text, Agent.run_once, hc, hb, run_until_text_on_toolcalls, he]

/-- A whole prefix of recoverable-failure turns of `run_until_tool` only
appends the assistant tool-calls messages. -/
theorem run_until_tool_recoverable_prefix {ARGS : Type} (tname : String)
    (parse : String → Except String ARGS) (tb : ToolBox)
    (failures rest : List CreateChatCompletionResponse) (ctx : Ctx)
    (h : ∀ r ∈ failures, recoverable_failure_response tb r ∧ no_target_call tname r) :
    Agent.run_until_tool tname parse tb (failures ++ rest) ctx
      = Agent.run_until_tool tname parse tb rest
          (ctx ++ failures.map fun r => assistantWithToolCalls (first_choice_toolcalls r)) := by
  induction failures generalizing ctx with
  | nil => simp
  | cons r rs ih =>
    have hr := h r (by simp)
    rw [List.cons_append,
      run_until_tool_step_recoverable tname parse tb r (rs ++ rest) ctx hr.1 hr.2,
      ih _ fun x hx => h x (List.mem_cons_of_mem r hx)]
    simp

/-- A whole prefix of recoverable-failure turns of `run_until_text` only
appends the assistant tool-calls messages. -/
theorem run_until_text_recoverable_prefix (tb : ToolBox)
    (failures rest : List CreateChatCompletionResponse) (ctx : Ctx)
    (h : ∀ r ∈ failures, recoverable_failure_response tb r) :
    Agent.run_until_text tb (failures ++ rest) ctx
      = Agent.run_until_text tb rest
          (ctx ++ failures.map fun r => assistantWithToolCalls (first_choice_toolcalls r)) := by
  induction failures generalizing ctx with
  | nil => simp
  | cons r rs ih =>
    have hr := h r (by simp)
    rw [List.cons_append,
      run_until_text_step_recoverable tb r (rs ++ rest) ctx hr,
      ih _ fun x hx => h x (List.mem_cons_of_mem r hx)]
    simp

/-- C8: in both loops, any number of consecutive turns whose tool dispatch
fails with `NoSuchTool` or `IncorrectToolCall` leaves the loop running (the
script simply advances, with only the assistant tool-calls messages
appended), while a dispatch error of any other kind ends the loop with that
error. -/
theorem recoverable_dispatch_failures_do_not_terminate {ARGS : Type} (tname : String)
    (parse : String → Except String ARGS) (tb tb2 : ToolBox)
    (failures rest rest2 : List CreateChatCompletionResponse) (ctx ctx2 : Ctx)
    (fatal : CreateChatCompletionResponse) (e : PromptError) :
    ((∀ r ∈ failures, recoverable_failure_response tb r ∧ no_target_call tname r) →
        Agent.run_until_tool tname parse tb (failures ++ rest) ctx
          = Agent.run_until_tool tname parse tb rest
              (ctx ++ failures.map fun r => assistantWithToolCalls (first_choice_toolcalls r)))
  ∧ ((∀ r ∈ failures, recoverable_failure_response tb r) →
        Agent.run_until_text tb (failures ++ rest) ctx
          = Agent.run_until_text tb rest
              (ctx ++ failures.map fun r => assistantWithToolCalls (first_choice_toolcalls r)))
  ∧ (fatal_failure_response tb2 fatal e → no_target_call tname fatal →
        Agent.run_until_tool tname parse tb2 (fatal :: rest2) ctx2
            = .err e (ctx2 ++ [assistantWithToolCalls (first_choice_toolcalls fatal)])
          ∧ Agent.run_until_text tb2 (fatal :: rest2) ctx2
            = .err e (ctx2 ++ [assistantWithToolCalls (first_choice_toolcalls fatal)])) := by
  refine ⟨?_, ?_, ?_⟩
  · exact run_until_tool_recoverable_prefix tname parse tb failures rest ctx
  · exact run_until_text_recoverable_prefix tb failures rest ctx
  · intro hf hn
    exact ⟨run_until_tool_step_fatal tname parse tb2 fatal rest2 ctx2 e hf hn,
      run_until_text_step_fatal tb2 fatal rest2 ctx2 e hf⟩

/-- Witness for `recoverable_dispatch_failures_do_not_terminate`: three
consecutive unknown-tool responses keep both loops running (the result is the
run of the remaining, here empty, script), and one turn whose only tool fails
with an IO error ends both loops with that error. -/
theorem recoverable_dispatch_failures_witness :
    Agent.run_until_tool "mytool" parse_nat { tools := [] }
        [unknown_tool_response, unknown_tool_response, unknown_tool_response] []
      = Agent.run_until_tool "mytool" parse_nat { tools := [] } []
          [assistantWithToolCalls [mkToolCall "1" "nope" "1"],
            assistantWithToolCalls [mkToolCall "1" "nope" "1"],
            assistantWithToolCalls [mkToolCall "1" "nope" "1"]]
  ∧ Agent.run_until_text { tools := [] }
        [unknown_tool_response, unknown_tool_response, unknown_tool_response] []
      = Agent.run_until_text { tools := [] } []
          [assistantWithToolCalls [mkToolCall "1" "nope" "1"],
            assistantWithToolCalls [mkToolCall "1" "nope" "1"],
            assistantWithToolCalls [mkToolCall "1" "nope" "1"]]
  ∧ Agent.run_until_tool "mytool" parse_nat fatal_toolbox [fatal_response] []
      = .err (.ioError "disk error") [assistantWithToolCalls [mkToolCall "1" "boom" "1"]]
  ∧ Agent.run_until_text fatal_toolbox [fatal_response] []
      = .err (.ioError "disk error") [assistantWithToolCalls [mkToolCall "1" "boom" "1"]] := by
  have hrec : recoverable_failure_response { tools := [] } unknown_tool_response :=
    ⟨mkChoice (some .toolCalls) none none (some [mkToolCall "1" "nope" "1"]), [],
      rfl, rfl, .noSuchTool "nope", rfl, Or.inl rfl⟩
  have hno : no_target_call "mytool" unknown_tool_response := rfl
  have hfat : fatal_failure_response fatal_toolbox fatal_response (.ioError "disk error") :=
    ⟨mkChoice (some .toolCalls) none none (some [mkToolCall "1" "boom" "1"]), [],
      rfl, rfl, rfl, rfl, rfl⟩
  have H := recoverable_dispatch_failures_do_not_terminate "mytool" parse_nat
    { tools := [] } fatal_toolbox
    [unknown_tool_response, unknown_tool_response, unknown_tool_response] [] []
    [] [] fatal_response (.ioError "disk error")
  have h3 : ∀ r ∈ [unknown_tool_response, unknown_tool_response, unknown_tool_response],
      recoverable_failure_response { tools := [] } r ∧
        no_target_call "mytool" r := by
    intro r hr
    have : r = unknown_tool_response := by
      simp only [List.mem_cons, List.not_mem_nil, or_false] at hr
      rcases hr with h | h | h <;> exact h
    rw [this]
    exact ⟨hrec, hno⟩
  have h3' : ∀ r ∈ [unknown_tool_response, unknown_tool_response, unknown_tool_response],
      recoverable_failure_response { tools := [] } r := fun r hr => (h3 r hr).1
  refine ⟨?_, ?_, ?_, ?_⟩
  · exact H.1 h3
  · exact H.2.1 h3'
  · exact (H.2.2 hfat rfl).1
  · exact (H.2.2 hfat rfl).2

/-- C6 (counterexample): the response carries two calls named `mytool`; the
first has arguments that do not parse, the second has arguments that do.  The
claim predicts `Out` with the parsed arguments of the second call (the first
call that both matches the name and parses); instead `run_until_tool` takes
the first *name* match, fails to parse it, and the turn ends with a JSON
error — no success value at all. -/
theorem run_until_tool_not_first_parsing_match :
    Agent.run_until_tool "mytool" parse_nat { tools := [] } [c6_response] []
      = .err (.stdJson "not a number: oops")
          [assistantWithToolCalls [mkToolCall "1" "mytool" "oops",
            mkToolCall "2" "mytool" "42"]]
  ∧ (Agent.run_until_tool "mytool" parse_nat { tools := [] }
      [c6_response] []).succeeded = false := by
  constructor
  · decide
  · decide

/-- C6 (amended): if the first call whose *name* matches the target tool has
arguments that parse, `run_until_tool` ends the turn with `Out` of those
parsed arguments, appending only the assistant tool-calls message — for every
toolbox, so none of the other calls in the response is dispatched. -/
theorem run_until_tool_out_on_first_name_match {ARGS : Type} (tname : String)
    (parse : String → Except String ARGS) (tb : ToolBox)
    (resp : CreateChatCompletionResponse) (rest : List CreateChatCompletionResponse)
    (ctx : Ctx) (choice : ChatChoice) (restChoices : List ChatChoice)
    (call : ChatCompletionMessageToolCall) (v : ARGS)
    (hc : resp.choices = choice :: restChoices)
    (hb : toolcalls_branch choice = true)
    (hf : (choice.message.tool_calls.getD []).find? (fun t => t.function.name == tname)
            = some call)
    (hp : parse call.function.arguments = .ok v) :
    Agent.run_until_tool tname parse tb (resp :: rest) ctx
      = .ok v (ctx ++ [assistantWithToolCalls (choice.message.tool_calls.getD [])]) := by
  simp [Agent.run_until_tool, Agent.run_once, hc, hb, run_until_tool_on_toolcalls, hf, hp]

/-- Witness for `run_until_tool_out_on_first_name_match`: an unrelated call
precedes the target call; the result is `Out 7` even though the toolbox
(whose only tool always fails) is never consulted. -/
theorem run_until_tool_out_on_first_name_match_witness :
    Agent.run_until_tool "mytool" parse_nat fatal_toolbox [c6_witness_response] []
      = .ok 7 [assistantWithToolCalls [mkToolCall "1" "other" "1",
          mkToolCall "2" "mytool" "7"]] := by
  exact run_until_tool_out_on_first_name_match "mytool" parse_nat fatal_toolbox
    c6_witness_response []
    [] (mkChoice (some .toolCalls) none none
      (some [mkToolCall "1" "other" "1", mkToolCall "2" "mytool" "7"])) []
    (mkToolCall "2" "mytool" "7") 7 rfl rfl rfl rfl

/-- C7 (counterexample): when the first name-matching call's arguments fail
to parse, the surfaced error is `PromptError::STDJSON` wrapping the serde
message — not the `IncorrectToolCall` variant, which is the only one carrying
the expected schema and the raw argument text. -/
theorem run_until_tool_target_parse_error_is_stdjson :
    Agent.run_until_tool "mytool" parse_nat { tools := [] } [c7_response] []
      = .err (.stdJson "not a number: zzz")
          [assistantWithToolCalls [mkToolCall "1" "mytool" "zzz"]]
  ∧ PromptError.is_incorrect_tool_call (.stdJson "not a number: zzz") = false := by
  constructor
  · decide
  · decide

/-- C7 (amended): a first name-matching call whose arguments fail to parse
ends the turn with `Err(PromptError::STDJSON(serde error))` — the loop
neither silently succeeds nor returns `Out`. -/
theorem run_until_tool_target_parse_failure {ARGS : Type} (tname : String)
    (parse : String → Except String ARGS) (tb : ToolBox)
    (resp : CreateChatCompletionResponse) (rest : List CreateChatCompletionResponse)
    (ctx : Ctx) (choice : ChatChoice) (restChoices : List ChatChoice)
    (call : ChatCompletionMessageToolCall) (msg : String)
    (hc : resp.choices = choice :: restChoices)
    (hb : toolcalls_branch choice = true)
    (hf : (choice.message.tool_calls.getD []).find? (fun t => t.function.name == tname)
            = some call)
    (hp : parse call.function.arguments = .error msg) :
    Agent.run_until_tool tname parse tb (resp :: rest) ctx
      = .err (.stdJson msg)
          (ctx ++ [assistantWithToolCalls (choice.message.tool_calls.getD [])]) := by
  simp [Agent.run_until_tool, Agent.run_once, hc, hb, run_until_tool_on_toolcalls, hf, hp]

/-- Witness for `run_until_tool_target_parse_failure` at a concrete call. -/
theorem run_until_tool_target_parse_failure_witness :
    Agent.run_until_tool "mytool" parse_nat { tools := [] } [c7_witness_response] []
      = .err (.stdJson "not a number: what")
          [assistantWithToolCalls [mkToolCall "1" "mytool" "what"]] := by
  exact run_until_tool_target_parse_failure "mytool" parse_nat { tools := [] }
    c7_witness_response []
    [] (mkChoice (some .toolCalls) none none (some [mkToolCall "1" "mytool" "what"])) []
    (mkToolCall "1" "mytool" "what") "not a number: what" rfl rfl rfl rfl

/-- C9: a response classified as a refusal ends `run_until_text` with the
`ok` outcome carrying the refusal text (the `Unexpected` action is mapped to
`Ok(s)` by the loop, agent.rs line 240) — a success value, not an error. -/
theorem run_until_text_refusal_is_success (tb : ToolBox)
    (resp : CreateChatCompletionResponse) (rest : List CreateChatCompletionResponse)
    (ctx : Ctx) (choice : ChatChoice) (restChoices : List ChatChoice)
    (hc : resp.choices = choice :: restChoices)
    (hb : toolcalls_branch choice = false)
    (hr : refusal_branch choice = true) :
    Agent.run_until_text tb (resp :: rest) ctx
      = .ok (choice.message.refusal.getD "")
          (ctx ++ [assistantWithRefusal (choice.message.refusal.getD "")]) := by
  simp [Agent.run_until_text, Agent.run_once, hc, hb, hr]

/-- Witness for `run_until_text_refusal_is_success` at a concrete refusal. -/
theorem run_until_text_refusal_is_success_witness :
    Agent.run_until_text { tools := [] } [c9_response] []
      = .ok "cannot help with that" [assistantWithRefusal "cannot help with that"] := by
  exact run_until_text_refusal_is_success { tools := [] } c9_response [] []
    (mkChoice (some .contentFilter) none (some "cannot help with that") none) []
    rfl rfl rfl

end OpenAIModels
